import Mathlib

/-!
Verification development for the cpuvideorecorder sources.

The two C++ source files are shallowly embedded:

* `beta125tryforfinal3.cpp` — the DXGI screen recorder: the frame pool
  (`FramePool`), the producer/consumer hand-off queue (`FrameQueue` plus the
  global `stopRecording` flag), the capture-loop pacing arithmetic, and the
  encoder thread's loop and flush block.
* `audio09i2.cpp` — the WASAPI loopback recorder: the `WAVHeader` struct,
  `WriteWAVHeader`, and the header-rewrite/payload-write sequence in `main`.

Machine integers are modelled as `Nat` with explicit `% 2^w` where C unsigned
wrap-around matters.  `std::chrono::high_resolution_clock` time points are
modelled as nanosecond counts.  The external FFmpeg encoder is modelled from
the specification's collaborator contract (sections 4.5 and 6), as noted on
the relevant definitions.
-/

/-- Pooled frame buffer: `id` stands for the buffer address allocated once by
`av_frame_alloc`/`av_frame_get_buffer` in the `FramePool` constructor, `pts`
for the frame's mutable presentation timestamp. -/
structure AVFrame where
  id : Nat
  pts : Nat
deriving DecidableEq

/-- Struct `FrameItem` (lines 45-48): a frame pointer together with the pts
it was queued with. -/
structure FrameItem where
  frame : AVFrame
  pts : Nat
deriving DecidableEq

/-- Constant `targetFPS` from `main` (line 117). -/
def targetFPS : Nat := 30

/-- Term `frameInterval = std::chrono::milliseconds(1000 / targetFPS)`
(line 249): integer division, value in milliseconds. -/
def frameIntervalMs : Nat := 1000 / targetFPS

/-- The same interval converted to nanoseconds, the unit in which we model
`high_resolution_clock` time points. -/
def frameIntervalNs : Nat := frameIntervalMs * 1000000

/-- Producer-side pacing state of the capture loop: the logical frame counter
`frameCounter` (line 247) and the next capture deadline `nextFrameTime`
(line 248), in nanoseconds. -/
structure ProducerState where
  frameCounter : Nat
  nextFrameTime : Nat
deriving DecidableEq

/-- Pacing code at the top of each capture-loop iteration (lines 251-261):
when `now` is past `nextFrameTime + frameInterval`, a skip count is computed
by millisecond truncation of the lateness divided by the interval, the frame
counter advances by that skip count, and the deadline advances by
`frameInterval * (skipCount + 1)`; otherwise the loop sleeps until the
deadline and the deadline advances by one interval. -/
def pacerUpdate (now : Nat) (s : ProducerState) : ProducerState :=
  if s.nextFrameTime + frameIntervalNs < now then
    let skipCount := (now - s.nextFrameTime) / 1000000 / frameIntervalMs
    { frameCounter := s.frameCounter + skipCount,
      nextFrameTime := s.nextFrameTime + frameIntervalNs * (skipCount + 1) }
  else
    { s with nextFrameTime := s.nextFrameTime + frameIntervalNs }

/-- The skip count of line 255:
`duration_cast<milliseconds>(now - nextFrameTime).count() / frameInterval.count()`. -/
def skipCountAt (now : Nat) (s : ProducerState) : Nat :=
  (now - s.nextFrameTime) / 1000000 / frameIntervalMs

/-- The four ways a capture-loop iteration can proceed after the pacing code:
`AcquireNextFrame` misses (line 265), the pool is exhausted (line 279), the
checked `sws_scale` call fails (line 293), or a frame is converted, stamped
and queued (lines 304-305). -/
inductive CaptureOutcome
  | acquireTimeout
  | poolExhausted
  | scaleFailed
  | captured
deriving DecidableEq

/-- One capture-loop iteration (lines 251-308) restricted to its effect on
the pacing state and the pushed pts: the pacing update always runs; only an
iteration that reaches line 304 performs `frameYUV->pts = frameCounter++`,
and the second component is the pts that was pushed, if any. -/
def captureIteration (now : Nat) (outcome : CaptureOutcome) (s : ProducerState) :
    ProducerState × Option Nat :=
  let s1 := pacerUpdate now s
  match outcome with
  | CaptureOutcome.captured =>
      ({ s1 with frameCounter := s1.frameCounter + 1 }, some s1.frameCounter)
  | _ => (s1, none)

/-- Shared state seen by `FrameQueue` and the SIGINT handler: the global
`volatile bool stopRecording` (line 29) and the queue contents (line 73). -/
structure QState where
  stopRecording : Bool
  queue : List FrameItem
deriving DecidableEq

/-- Method `FrameQueue::push` (lines 52-56): appends unconditionally and
calls `cv.notify_one()`.  The `Bool` component records whether the call
notified the queue's condition variable. -/
def FrameQueue.push (item : FrameItem) (s : QState) : QState × Bool :=
  ({ s with queue := s.queue ++ [item] }, true)

/-- Handler `signalHandler` (line 30): sets `stopRecording` and nothing
else.  The `Bool` component records whether the call notified the queue's
condition variable (it performs no notification). -/
def signalHandler (s : QState) : QState × Bool :=
  ({ s with stopRecording := true }, false)

/-- Method `FrameQueue::pop` (lines 58-65), observed at the point where its
wait loop `while (q.empty() && !stopRecording) cv.wait(lock);` has exited:
an empty queue (possible on exit only with `stopRecording` set) yields the
end-of-stream result `none` (the C++ `return false`); otherwise the front
item is removed and returned. -/
def FrameQueue.pop (s : QState) : Option FrameItem × QState :=
  match s.queue with
  | [] => (none, s)
  | x :: rest => (some x, { s with queue := rest })

/-- Class `FramePool` (lines 79-110): the free list `freeFrames`. -/
structure FramePool where
  freeFrames : List AVFrame
deriving DecidableEq

/-- Constructor `FramePool::FramePool` (lines 81-90): allocates `size`
buffers once and pushes them all on the free list; buffer number `i` is
modelled by id `i`, with pts 0 (`av_frame_alloc` zero-initialises pts). -/
def FramePool.init (n : Nat) : FramePool :=
  { freeFrames := (List.range n).map fun i => { id := i, pts := 0 } }

/-- Method `FramePool::acquire` (lines 92-98): non-blocking; returns
`nullptr` (here `none`) when the free list is empty, else the front frame. -/
def FramePool.acquire (p : FramePool) : Option AVFrame × FramePool :=
  match p.freeFrames with
  | [] => (none, p)
  | f :: rest => (some f, { freeFrames := rest })

/-- Method `FramePool::release` (lines 100-105): resets only the frame's pts
to 0 and pushes the same buffer back on the free list. -/
def FramePool.release (f : AVFrame) (p : FramePool) : FramePool :=
  { freeFrames := p.freeFrames ++ [{ f with pts := 0 }] }

/-- Joint state of the encoder thread and the pipeline it shares with the
capture loop: the stop flag, the frame pool, the queue contents, whether the
worker is still consuming (it leaves its loop on encode failure), and how
many error lines it has printed to `std::cerr`. -/
structure SysState where
  stopRecording : Bool
  pool : FramePool
  queue : List FrameItem
  workerRunning : Bool
  errLogs : Nat
deriving DecidableEq

/-- One iteration of the encoder-thread loop (lines 221-235), parameterised
by whether `avcodec_send_frame` succeeds (`encodeOk`) and whether
`av_interleaved_write_frame` succeeds (`writeOk`).  On success the popped
frame is released to the pool; the result of every packet write is discarded
by the source (line 230), so `writeOk` is never consulted.  On encode failure
the thread prints to `std::cerr` and breaks out of its loop; it neither
releases the popped frame nor touches `stopRecording`. -/
def workerStep (encodeOk writeOk : Bool) (s : SysState) : SysState :=
  if s.workerRunning = true then
    match s.queue with
    | [] => s
    | item :: rest =>
      if encodeOk then
        { s with queue := rest, pool := s.pool.release item.frame }
      else
        { s with queue := rest, workerRunning := false, errLogs := s.errLogs + 1 }
  else s

/-- Modelled from the spec: the state of the external encoder collaborator of
sections 4.5 and 6, which is not part of this repository — it may buffer up
to `lookahead` input frames internally before emitting packets, and emits
everything once put into drain mode. `buffered` lists the pts of the frames
currently held inside the encoder. -/
structure EncoderState where
  lookahead : Nat
  buffered : List Nat
  draining : Bool
deriving DecidableEq

/-- Modelled from the spec: `avcodec_send_frame` of the external encoder — a
real frame joins the internal buffer; the null end-of-stream frame puts the
encoder into drain mode. -/
def EncoderState.sendFrame (e : EncoderState) (f : Option Nat) : EncoderState :=
  match f with
  | some p => { e with buffered := e.buffered ++ [p] }
  | none => { e with draining := true }

/-- Modelled from the spec: `avcodec_receive_packet` of the external
encoder — a packet is available only when the encoder holds more frames than
its lookahead depth, or when it is draining; otherwise the call fails
(EAGAIN, nonzero return) and yields nothing. -/
def EncoderState.receivePacket (e : EncoderState) : Option Nat × EncoderState :=
  match e.buffered with
  | [] => (none, e)
  | p :: rest =>
    if e.draining ∨ e.lookahead < e.buffered.length then
      (some p, { e with buffered := rest })
    else
      (none, e)

/-- Loop `while (avcodec_receive_packet(...) == 0) { write; unref; }`
(lines 229-232 and 238-241), with explicit fuel; returns the encoder state
and the list of packets written, in order. -/
def receiveLoop : Nat → EncoderState → EncoderState × List Nat
  | 0, e => (e, [])
  | fuel + 1, e =>
    match e.receivePacket with
    | (none, e1) => (e1, [])
    | (some p, e1) =>
      let r := receiveLoop fuel e1
      (r.1, p :: r.2)

/-- Flush block of the encoder thread (lines 237-241): it only loops on
`avcodec_receive_packet`; it never sends the null frame first, so the
encoder is never put into drain mode. -/
def codeFlush (e : EncoderState) : EncoderState × List Nat :=
  receiveLoop (e.buffered.length + 1) e

/-- Modelled from the spec: the flush operation of section 6 first puts the
encoder into drain mode (null frame) and then collects every remaining
packet.  Kept for comparison with `codeFlush`. -/
def specFlush (e : EncoderState) : EncoderState × List Nat :=
  receiveLoop (e.buffered.length + 2) (e.sendFrame none)

/-- Per-frame work of the encoder thread (lines 224-232): send one frame,
then drain whatever packets are immediately available. -/
def encodeFrame (e : EncoderState) (p : Nat) : EncoderState × List Nat :=
  let e1 := e.sendFrame (some p)
  receiveLoop (e1.buffered.length + 1) e1

/-- Operations applied to the queue by the two threads, for the FIFO
argument. -/
inductive QueueOp
  | push (item : FrameItem)
  | pop
deriving DecidableEq

/-- Trace state for the FIFO argument: the queue contents plus the history of
everything pushed and everything popped so far, in order. -/
structure QueueTrace where
  queue : List FrameItem
  pushed : List FrameItem
  popped : List FrameItem
deriving DecidableEq

/-- One queue operation on the trace state: a push appends at the back (as
`FrameQueue::push` does), a pop removes the front (as `FrameQueue::pop`
does), and a pop on an empty queue returns nothing and changes nothing. -/
def queueTraceStep (s : QueueTrace) : QueueOp → QueueTrace
  | QueueOp.push item =>
      { queue := s.queue ++ [item], pushed := s.pushed ++ [item], popped := s.popped }
  | QueueOp.pop =>
      match s.queue with
      | [] => s
      | x :: rest => { queue := rest, pushed := s.pushed, popped := s.popped ++ [x] }

/-- Run a list of queue operations from the empty initial state. -/
def queueRun (ops : List QueueOp) : QueueTrace :=
  ops.foldl queueTraceStep { queue := [], pushed := [], popped := [] }

/-- Client operations against the pool over a run: `acquire`, or give back
the `idx`-th currently held frame whose pts the client may have overwritten
with `newPts` (the producer writes `frameYUV->pts` at line 304 before the
frame eventually comes back through `FramePool::release`). -/
inductive PoolOp
  | acquire
  | release (idx : Nat) (newPts : Nat)
deriving DecidableEq

/-- Pool plus its clients: the frames currently checked out (`held`) and the
log of every frame `acquire` ever returned (`acquired`). -/
structure PoolSys where
  pool : FramePool
  held : List AVFrame
  acquired : List AVFrame
deriving DecidableEq

/-- One client operation against the pool, driving the embedded
`FramePool::acquire` and `FramePool::release` methods. -/
def poolStep (s : PoolSys) : PoolOp → PoolSys
  | PoolOp.acquire =>
      match s.pool.acquire with
      | (none, p1) => { s with pool := p1 }
      | (some f, p1) =>
          { pool := p1, held := s.held ++ [f], acquired := s.acquired ++ [f] }
  | PoolOp.release idx newPts =>
      match s.held[idx]? with
      | none => s
      | some f =>
          { pool := FramePool.release { f with pts := newPts } s.pool,
            held := s.held.eraseIdx idx,
            acquired := s.acquired }

/-- Run a list of pool operations against a freshly constructed pool of `n`
buffers. -/
def poolRun (n : Nat) (ops : List PoolOp) : PoolSys :=
  ops.foldl poolStep { pool := FramePool.init n, held := [], acquired := [] }

/-- Invariant tying a pool system of capacity `n` together: free and acquired
frames are among the `n` construction-time buffers (free ones with pts reset
to 0), held frames are construction-time buffers, and no buffer is ever
created or lost. -/
def PoolInv (n : Nat) (s : PoolSys) : Prop :=
  (∀ f ∈ s.pool.freeFrames, f.id < n ∧ f.pts = 0) ∧
  (∀ f ∈ s.held, f.id < n) ∧
  (∀ f ∈ s.acquired, f.id < n ∧ f.pts = 0) ∧
  s.pool.freeFrames.length + s.held.length = n

/-- A one-item pipeline state used to evaluate the worker loop at concrete
inputs: frame 7 (client pts 5) has been popped off an otherwise drained
system. -/
def oneItemState : SysState :=
  { stopRecording := false,
    pool := { freeFrames := [] },
    queue := [{ frame := { id := 7, pts := 5 }, pts := 5 }],
    workerRunning := true,
    errLogs := 0 }

/-- A concrete queue item for evaluating the queue methods. -/
def itemA : FrameItem := { frame := { id := 0, pts := 0 }, pts := 0 }

/-- Little-endian byte list of a 16-bit field. -/
def u16le (n : Nat) : List Nat := [n % 256, n / 256 % 256]

/-- Little-endian byte list of a 32-bit field. -/
def u32le (n : Nat) : List Nat :=
  [n % 256, n / 256 % 256, n / 65536 % 256, n / 16777216 % 256]

/-- Struct `WAVHeader` of `audio09i2.cpp` (lines 24-38), variable fields
only; the constant fields (`RIFF`, `WAVE`, `fmt `, `subChunk1Size = 16`,
`audioFormat = 1`, `data`) are fixed by the struct's initialisers and appear
in the serialisation below. -/
structure WAVHeader where
  numChannels : Nat
  sampleRate : Nat
  byteRate : Nat
  blockAlign : Nat
  bitsPerSample : Nat
  dataSize : Nat
  chunkSize : Nat
deriving DecidableEq

/-- Field computations of `WriteWAVHeader` (lines 41-50), with the C unsigned
arithmetic made explicit: `uint32_t` wraps at `2^32 = 4294967296`, `uint16_t`
at `2^16 = 65536`; `byteRate = sampleRate * channels * bitsPerSample / 8`
is computed in `uint32_t`, `blockAlign = channels * bitsPerSample / 8`
is stored in a `uint16_t`, `chunkSize = 36 + dataSize` in `uint32_t`. -/
def mkWAVHeader (channels sampleRate bitsPerSample dataSize : Nat) : WAVHeader :=
  { numChannels := channels % 65536,
    sampleRate := sampleRate % 4294967296,
    byteRate := sampleRate * channels * bitsPerSample % 4294967296 / 8,
    blockAlign := channels * bitsPerSample / 8 % 65536,
    bitsPerSample := bitsPerSample % 65536,
    dataSize := dataSize % 4294967296,
    chunkSize := (36 + dataSize % 4294967296) % 4294967296 }

/-- Byte image of a `WAVHeader` as written by `outFile.write(&header, 44)`
(line 51): the struct has no padding, so this is the 44-byte little-endian
layout with the constant tags `RIFF`, `WAVE`, `fmt `, `data` and the
constants 16 (fmt-chunk size) and 1 (PCM format). -/
def serializeWAVHeader (h : WAVHeader) : List Nat :=
  [82, 73, 70, 70] ++ u32le h.chunkSize
    ++ [87, 65, 86, 69] ++ [102, 109, 116, 32]
    ++ u32le 16 ++ u16le 1 ++ u16le h.numChannels ++ u32le h.sampleRate
    ++ u32le h.byteRate ++ u16le h.blockAlign ++ u16le h.bitsPerSample
    ++ [100, 97, 116, 97] ++ u32le h.dataSize

/-- Output file stream model: byte contents plus put position; a write
overwrites in place from the current position and advances it, as
`std::ofstream` does after `seekp`. -/
structure OFStream where
  content : List Nat
  pos : Nat

/-- Overwrite `bs` into `l` starting at `pos` (the semantics of a stream
write into the middle of a file). -/
def listOverwrite (l : List Nat) (pos : Nat) (bs : List Nat) : List Nat :=
  l.take pos ++ bs ++ l.drop (pos + bs.length)

/-- Stream write: overwrite at the put position and advance it. -/
def OFStream.writeBytes (f : OFStream) (bs : List Nat) : OFStream :=
  { content := listOverwrite f.content f.pos bs, pos := f.pos + bs.length }

/-- Call `outFile.seekp(0, std::ios::beg)` (line 161). -/
def OFStream.seekBeg (f : OFStream) : OFStream :=
  { f with pos := 0 }

/-- File-writing skeleton of `main` in `audio09i2.cpp` (lines 116-117 and
161-164): open the file and write a 44-byte header with `dataSize = 0`;
record (the payload accumulates only in the in-memory `audioData` vector);
then seek back to the start, rewrite the header with
`static_cast<uint32_t>(audioData.size())`, and write the payload bytes. -/
def recordWav (channels sampleRate : Nat) (payload : List Nat) : List Nat :=
  let f1 := OFStream.writeBytes { content := [], pos := 0 }
      (serializeWAVHeader (mkWAVHeader channels sampleRate 16 0))
  let f2 := OFStream.seekBeg f1
  let f3 := OFStream.writeBytes f2
      (serializeWAVHeader (mkWAVHeader channels sampleRate 16 payload.length))
  let f4 := OFStream.writeBytes f3 payload
  f4.content

/-! ## Claim C1 — pacer catch-up policy -/

/-- C1 counterexample: the claim quantifies over every behind-schedule
producer iteration, but an iteration that drops its frame (here: the
screen-duplication acquire times out) advances the logical frame counter
only by `skipCount`, not by `skipCount + 1` — with a 30 Hz target and a
100 ms stall the counter advances by 3, not 4, because the extra increment
happens only at the pts assignment of a successfully captured frame. -/
theorem C1_counterexample :
    (⟨0, 0⟩ : ProducerState).nextFrameTime + frameIntervalNs < 100000000 ∧
    skipCountAt 100000000 ⟨0, 0⟩ = 3 ∧
    (captureIteration 100000000 CaptureOutcome.acquireTimeout ⟨0, 0⟩).1.frameCounter = 3 ∧
    (captureIteration 100000000 CaptureOutcome.acquireTimeout ⟨0, 0⟩).1.frameCounter
      ≠ (⟨0, 0⟩ : ProducerState).frameCounter + (skipCountAt 100000000 ⟨0, 0⟩ + 1) := by
  decide

/-- C1 (amended): in every behind-schedule producer iteration
(`now > previousDeadline + frameInterval`) the pacer computes
`skipCount = floor((now - previousDeadline) / frameInterval)` (33 ms
interval, hence division by 33000000 ns) and sets the next deadline to
`previousDeadline + frameInterval * (skipCount + 1)`; an iteration that
successfully captures and enqueues a frame additionally increments the
counter at the pts assignment, for a total advance of exactly
`skipCount + 1` — in particular exactly 4 for a 100 ms stall at 30 Hz. -/
theorem C1_amended (now : Nat) (s : ProducerState)
    (h : s.nextFrameTime + frameIntervalNs < now) :
    (captureIteration now CaptureOutcome.captured s).1.frameCounter
        = s.frameCounter + (skipCountAt now s + 1) ∧
    (captureIteration now CaptureOutcome.captured s).1.nextFrameTime
        = s.nextFrameTime + frameIntervalNs * (skipCountAt now s + 1) ∧
    (captureIteration now CaptureOutcome.captured s).2
        = some (s.frameCounter + skipCountAt now s) ∧
    skipCountAt now s = (now - s.nextFrameTime) / 33000000 ∧
    (now - s.nextFrameTime = 100000000 →
      (captureIteration now CaptureOutcome.captured s).1.frameCounter
        = s.frameCounter + 4) := by
  have hstep : captureIteration now CaptureOutcome.captured s
      = ({ frameCounter := s.frameCounter + skipCountAt now s + 1,
           nextFrameTime := s.nextFrameTime + frameIntervalNs * (skipCountAt now s + 1) },
         some (s.frameCounter + skipCountAt now s)) := by
    simp [captureIteration, pacerUpdate, skipCountAt, h]
  have hdiv : skipCountAt now s = (now - s.nextFrameTime) / 33000000 := by
    show (now - s.nextFrameTime) / 1000000 / frameIntervalMs = _
    rw [Nat.div_div_eq_div_mul]
    norm_num [frameIntervalMs, targetFPS]
  refine ⟨by rw [hstep]; simp [Nat.add_assoc], by rw [hstep], by rw [hstep], hdiv, ?_⟩
  intro h100
  rw [hstep]
  simp only [hdiv, h100]

/-- C1 witness: the amended statement evaluated at a 100 ms stall past a
deadline at time 0 with counter 0 — the successful iteration leaves the
counter at 4. -/
theorem C1_witness :
    (captureIteration 100000000 CaptureOutcome.captured ⟨0, 0⟩).1.frameCounter = 4 :=
  (C1_amended 100000000 ⟨0, 0⟩ (by decide)).2.2.2.2 (by decide)

/-! ## Claim C9 — frame interval arithmetic -/

/-- C9 counterexample: the frame interval the code uses is
`milliseconds(1000 / 30) = 33 ms`, and 33/1000 of a second is not exactly
1/30 of a second. -/
theorem C9_counterexample : (frameIntervalMs : ℚ) / 1000 ≠ 1 / 30 := by
  have h33 : frameIntervalMs = 33 := rfl
  rw [h33]
  norm_num

/-- C9 (amended): the pacer's frame interval is
`milliseconds(1000 / targetFPS)`, i.e. 33 ms (33000000 ns) for the 30 Hz
target — not exactly 1/30 s — and on an on-time iteration each successive
deadline is the previous deadline plus exactly 33 ms. -/
theorem C9_amended (now : Nat) (s : ProducerState)
    (h : ¬ s.nextFrameTime + frameIntervalNs < now) :
    frameIntervalMs = 33 ∧
    frameIntervalNs = 33000000 ∧
    (pacerUpdate now s).nextFrameTime = s.nextFrameTime + 33000000 ∧
    (frameIntervalMs : ℚ) / 1000 ≠ 1 / 30 := by
  refine ⟨rfl, rfl, ?_, C9_counterexample⟩
  simp only [pacerUpdate, if_neg h]
  rfl

/-- C9 witness: the amended statement evaluated at `now = 0` on a fresh
pacing state: the deadline advances from 0 to exactly 33000000 ns. -/
theorem C9_witness :
    frameIntervalMs = 33 ∧
    frameIntervalNs = 33000000 ∧
    (pacerUpdate 0 ⟨0, 0⟩).nextFrameTime = 0 + 33000000 ∧
    (frameIntervalMs : ℚ) / 1000 ≠ 1 / 30 :=
  C9_amended 0 ⟨0, 0⟩ (by decide)

/-! ## Claim C2 — no acquired frame is leaked -/

/-- C2 fails on the code: when the worker has popped a frame (buffer 7) and
`avcodec_send_frame` fails, it breaks out of its loop with the frame neither
back in the pool nor in the queue — the frame is permanently checked out.
The first conjunct shows the success path of the same state does release the
frame, so the leak is specific to the failure path. -/
theorem C2_leak :
    (workerStep true true oneItemState).pool.freeFrames = [{ id := 7, pts := 0 }] ∧
    (workerStep false true oneItemState).pool.freeFrames = [] ∧
    (workerStep false true oneItemState).queue = [] ∧
    (workerStep false true oneItemState).workerRunning = false := by
  decide

/-! ## Claim C3 — encode/write failure handling -/

/-- C3 counterexample: after an encode failure the worker has stopped
consuming, but the shared stop flag is still false — shutdown of the overall
pipeline is never signaled — and the step function is literally independent
of whether a packet write succeeds, so write failures are silently
ignored. -/
theorem C3_counterexample :
    (workerStep false true oneItemState).workerRunning = false ∧
    (workerStep false true oneItemState).stopRecording = false ∧
    workerStep true false oneItemState = workerStep true true oneItemState := by
  decide

/-- C3 (amended): whenever an encode call fails, the worker logs the failure
and stops consuming further queue items, but it does not signal shutdown of
the pipeline — the stop flag is left unchanged, so the producer keeps
running; and a packet-write failure changes nothing at all: the worker's
behaviour is independent of the write result. -/
theorem C3_amended (s : SysState) (writeOk : Bool) (item : FrameItem)
    (rest : List FrameItem) (hrun : s.workerRunning = true)
    (hq : s.queue = item :: rest) :
    (workerStep false writeOk s).workerRunning = false ∧
    (workerStep false writeOk s).stopRecording = s.stopRecording ∧
    (workerStep false writeOk s).errLogs = s.errLogs + 1 ∧
    (workerStep false writeOk s).queue = rest ∧
    (∀ encodeOk : Bool, workerStep encodeOk writeOk s = workerStep encodeOk true s) := by
  refine ⟨?_, ?_, ?_, ?_, fun _ => rfl⟩ <;> simp [workerStep, hrun, hq]

/-- C3 witness: the amended statement evaluated on the one-item pipeline
state. -/
theorem C3_witness :
    (workerStep false true oneItemState).workerRunning = false ∧
    (workerStep false true oneItemState).stopRecording = false ∧
    (workerStep false true oneItemState).errLogs = 1 ∧
    (workerStep false true oneItemState).queue = [] ∧
    (∀ encodeOk : Bool, workerStep encodeOk true oneItemState
        = workerStep encodeOk true oneItemState) :=
  C3_amended oneItemState true { frame := { id := 7, pts := 5 }, pts := 5 } [] rfl rfl

/-! ## Claim C4 — encoder flush before the trailer -/

/-- C4 fails on the code: the post-loop flush block only loops on
`avcodec_receive_packet` and never sends the null frame, so the encoder is
never put into drain mode.  With a lookahead of one frame, encoding one
frame leaves it buffered (first conjunct); the code's flush block then
writes no packet, leaves the frame buffered and leaves drain mode off,
whereas the flush operation the claim describes would have emitted the
buffered packet before the trailer is written. -/
theorem C4_flushBug :
    (encodeFrame { lookahead := 1, buffered := [], draining := false } 0).1
      = { lookahead := 1, buffered := [0], draining := false } ∧
    (codeFlush { lookahead := 1, buffered := [0], draining := false }).2 = [] ∧
    (codeFlush { lookahead := 1, buffered := [0], draining := false }).1.buffered = [0] ∧
    (codeFlush { lookahead := 1, buffered := [0], draining := false }).1.draining = false ∧
    (specFlush { lookahead := 1, buffered := [0], draining := false }).2 = [0] := by
  decide

/-! ## Claim C5 — push after shutdown -/

/-- C5 counterexample: `FrameQueue::push` performed after shutdown has been
signaled (stop flag already true) still appends the frame to the queue; it
is neither a no-op nor an error. -/
theorem C5_counterexample :
    (FrameQueue.push itemA { stopRecording := true, queue := [] }).1.queue = [itemA] := by
  decide

/-- C5 (amended): `FrameQueue::push` appends the frame and wakes the
consumer unconditionally, even when shutdown has already been signaled;
post-shutdown pushes are not rejected (the producer merely stops calling
push once it observes the stop flag at its loop head). -/
theorem C5_amended (item : FrameItem) (s : QState) (h : s.stopRecording = true) :
    (FrameQueue.push item s).1.queue = s.queue ++ [item] ∧
    (FrameQueue.push item s).1.stopRecording = true ∧
    (FrameQueue.push item s).2 = true := by
  exact ⟨rfl, h, rfl⟩

/-- C5 witness: the amended statement evaluated on an empty queue with the
stop flag set. -/
theorem C5_witness :
    (FrameQueue.push itemA { stopRecording := true, queue := [] }).1.queue = [itemA] ∧
    (FrameQueue.push itemA { stopRecording := true, queue := [] }).1.stopRecording = true ∧
    (FrameQueue.push itemA { stopRecording := true, queue := [] }).2 = true :=
  C5_amended itemA { stopRecording := true, queue := [] } rfl

/-! ## Claim C6 — shutdown signaling and drain -/

/-- C6 fails on the code: `signalHandler` sets the stop flag and leaves the
queued items in place, and `FrameQueue::pop` does return the end-of-stream
marker on an empty queue after shutdown and keeps returning queued items
while any remain — but signaling shutdown performs no condition-variable
notification (second component `false`, contrast with `push`), so a consumer
blocked inside `pop`'s wait loop is not woken. -/
theorem C6_shutdownBug :
    (signalHandler { stopRecording := false, queue := [itemA] }).1
      = { stopRecording := true, queue := [itemA] } ∧
    (signalHandler { stopRecording := false, queue := [itemA] }).2 = false ∧
    (FrameQueue.push itemA { stopRecording := false, queue := [] }).2 = true ∧
    (FrameQueue.pop { stopRecording := true, queue := [] }).1 = none ∧
    (FrameQueue.pop { stopRecording := true, queue := [itemA] }).1 = some itemA ∧
    (FrameQueue.pop { stopRecording := true, queue := [itemA] }).2.queue = [] := by
  decide

/-! ## Claim C8 — strict FIFO ordering -/

/-- One queue-trace step preserves the ledger invariant: everything ever
pushed is everything popped followed by what is still queued. -/
theorem queueTraceStep_inv (s : QueueTrace) (op : QueueOp)
    (h : s.pushed = s.popped ++ s.queue) :
    (queueTraceStep s op).pushed
      = (queueTraceStep s op).popped ++ (queueTraceStep s op).queue := by
  cases op with
  | push item => simp [queueTraceStep, h]
  | pop =>
    cases hq : s.queue with
    | nil => simpa [queueTraceStep, hq] using h
    | cons x rest =>
      simp only [queueTraceStep, hq]
      rw [h, hq]
      simp

/-- The ledger invariant holds along any run from any state satisfying it. -/
theorem queueRun_inv_aux (ops : List QueueOp) (s : QueueTrace)
    (h : s.pushed = s.popped ++ s.queue) :
    (ops.foldl queueTraceStep s).pushed
      = (ops.foldl queueTraceStep s).popped ++ (ops.foldl queueTraceStep s).queue := by
  induction ops generalizing s with
  | nil => simpa using h
  | cons op rest ih => exact ih _ (queueTraceStep_inv s op h)

/-- The ledger invariant holds for every run from the empty queue. -/
theorem queueRun_inv (ops : List QueueOp) :
    (queueRun ops).pushed = (queueRun ops).popped ++ (queueRun ops).queue :=
  queueRun_inv_aux ops _ rfl

/-- C8: the queue is strictly FIFO — over any interleaving of pushes and
pops, the sequence of popped frames is an initial segment of the sequence of
pushed frames (a frame pushed before another is popped before it); and
consequently, when the producer pushes frames with strictly increasing pts,
the consumer processes frames in strictly increasing pts order, i.e. a frame
with pts `p1` is processed before one with pts `p2` whenever `p1 < p2`. -/
theorem C8_fifo (ops : List QueueOp)
    (h : List.Pairwise (fun a b => a.pts < b.pts) (queueRun ops).pushed) :
    (queueRun ops).popped <+: (queueRun ops).pushed ∧
    List.Pairwise (fun a b => a.pts < b.pts) (queueRun ops).popped := by
  have hinv := queueRun_inv ops
  refine ⟨⟨(queueRun ops).queue, hinv.symm⟩, ?_⟩
  have hsub : List.Sublist (queueRun ops).popped (queueRun ops).pushed := by
    rw [hinv]
    exact List.sublist_append_left _ _
  exact List.Pairwise.sublist hsub h

/-- C8 witness: a concrete run — push pts 0, push pts 1, pop, pop — whose
push log is strictly increasing in pts; the popped sequence is an initial
segment of the pushed one and is itself strictly increasing in pts. -/
theorem C8_witness :
    (queueRun [QueueOp.push { frame := { id := 0, pts := 0 }, pts := 0 },
        QueueOp.push { frame := { id := 1, pts := 1 }, pts := 1 },
        QueueOp.pop, QueueOp.pop]).popped
      <+: (queueRun [QueueOp.push { frame := { id := 0, pts := 0 }, pts := 0 },
        QueueOp.push { frame := { id := 1, pts := 1 }, pts := 1 },
        QueueOp.pop, QueueOp.pop]).pushed ∧
    List.Pairwise (fun a b => a.pts < b.pts)
      (queueRun [QueueOp.push { frame := { id := 0, pts := 0 }, pts := 0 },
        QueueOp.push { frame := { id := 1, pts := 1 }, pts := 1 },
        QueueOp.pop, QueueOp.pop]).popped :=
  C8_fifo _ (by decide)

/-! ## Claim C7 — pool stability -/

/-- Membership in the construction-time free list is exactly: id below the
capacity and pts 0. -/
theorem mem_init_iff (n : Nat) (f : AVFrame) :
    f ∈ (FramePool.init n).freeFrames ↔ f.id < n ∧ f.pts = 0 := by
  cases f with
  | mk i p =>
    simp only [FramePool.init, List.mem_map, List.mem_range]
    constructor
    · rintro ⟨j, hj, hje⟩
      cases hje
      exact ⟨hj, rfl⟩
    · rintro ⟨hi, hp⟩
      cases hp
      exact ⟨i, hi, rfl⟩

/-- One pool operation preserves the pool-system invariant. -/
theorem poolStep_inv {n : Nat} {s : PoolSys} (op : PoolOp) (h : PoolInv n s) :
    PoolInv n (poolStep s op) := by
  obtain ⟨hfree, hheld, hacq, hlen⟩ := h
  cases op with
  | acquire =>
    cases hq : s.pool.freeFrames with
    | nil =>
      simp only [poolStep, FramePool.acquire, hq]
      exact ⟨hfree, hheld, hacq, hlen⟩
    | cons f rest =>
      simp only [poolStep, FramePool.acquire, hq]
      have hf := hfree f (by rw [hq]; exact List.mem_cons_self f rest)
      refine ⟨?_, ?_, ?_, ?_⟩
      · intro g hg
        exact hfree g (by rw [hq]; exact List.mem_cons_of_mem f hg)
      · intro g hg
        rcases List.mem_append.mp hg with hg1 | hg2
        · exact hheld g hg1
        · rw [List.mem_singleton.mp hg2]
          exact hf.1
      · intro g hg
        rcases List.mem_append.mp hg with hg1 | hg2
        · exact hacq g hg1
        · rw [List.mem_singleton.mp hg2]
          exact hf
      · have : s.pool.freeFrames.length = rest.length + 1 := by rw [hq]; rfl
        simp only [List.length_append, List.length_cons, List.length_nil]
        omega
  | release idx newPts =>
    cases hg : s.held[idx]? with
    | none =>
      simp only [poolStep, hg]
      exact ⟨hfree, hheld, hacq, hlen⟩
    | some f =>
      obtain ⟨hidx, hfe⟩ := List.getElem?_eq_some.mp hg
      have hmem : f ∈ s.held := hfe ▸ List.getElem_mem hidx
      simp only [poolStep, hg, FramePool.release]
      refine ⟨?_, ?_, hacq, ?_⟩
      · intro g hgm
        rcases List.mem_append.mp hgm with hg1 | hg2
        · exact hfree g hg1
        · rw [List.mem_singleton.mp hg2]
          exact ⟨hheld f hmem, rfl⟩
      · intro g hgm
        exact hheld g (List.mem_of_mem_eraseIdx hgm)
      · have herase : (s.held.eraseIdx idx).length = s.held.length - 1 := by
          simp [List.length_eraseIdx, hidx]
        simp only [List.length_append, List.length_cons, List.length_nil, herase]
        omega

/-- The pool-system invariant holds along any run from any state satisfying
it. -/
theorem poolRun_inv_aux (ops : List PoolOp) (s : PoolSys) {n : Nat}
    (h : PoolInv n s) : PoolInv n (ops.foldl poolStep s) := by
  induction ops generalizing s with
  | nil => simpa using h
  | cons op rest ih => exact ih _ (poolStep_inv op h)

/-- The pool-system invariant holds for every run against a fresh pool. -/
theorem poolRun_inv (n : Nat) (ops : List PoolOp) : PoolInv n (poolRun n ops) := by
  refine poolRun_inv_aux ops _ ⟨?_, ?_, ?_, ?_⟩
  · intro f hf
    exact (mem_init_iff n f).mp hf
  · intro f hf
    simp at hf
  · intro f hf
    simp at hf
  · simp [FramePool.init]

/-- C7: over the entire lifetime of a pool constructed with `n` buffers,
every frame ever returned by `acquire` is one of the `n` buffers allocated
at construction; the pool never grows or loses a buffer (free plus held is
always exactly `n`); `acquire` on an empty free list returns the exhausted
outcome `none` without blocking; and `release` reinserts the very same
buffer after resetting only its pts. -/
theorem C7_pool (n : Nat) (ops : List PoolOp) :
    (∀ f ∈ (poolRun n ops).acquired, f ∈ (FramePool.init n).freeFrames) ∧
    (poolRun n ops).pool.freeFrames.length + (poolRun n ops).held.length = n ∧
    (∀ p : FramePool, p.freeFrames = [] → (FramePool.acquire p).1 = none) ∧
    (∀ (f : AVFrame) (p : FramePool),
        (FramePool.release f p).freeFrames = p.freeFrames ++ [{ f with pts := 0 }]) := by
  obtain ⟨hfree, hheld, hacq, hlen⟩ := poolRun_inv n ops
  refine ⟨?_, hlen, ?_, ?_⟩
  · intro f hf
    exact (mem_init_iff n f).mpr (hacq f hf)
  · intro p hp
    simp [FramePool.acquire, hp]
  · intro f p
    rfl

/-- C7 witness: with a fresh two-buffer pool, acquiring once yields buffer 0,
which is indeed one of the two construction-time buffers. -/
theorem C7_witness :
    ({ id := 0, pts := 0 } : AVFrame) ∈ (FramePool.init 2).freeFrames :=
  (C7_pool 2 [PoolOp.acquire]).1 { id := 0, pts := 0 } (by decide)

/-! ## Claim C10 — WAV file layout -/

/-- A serialised WAV header always occupies exactly 44 bytes, matching
`sizeof(WAVHeader)` (the struct has no padding). -/
theorem serializeWAVHeader_length (h : WAVHeader) :
    (serializeWAVHeader h).length = 44 := rfl

/-- Overwriting from position 0 with a block as long as the old contents
replaces them completely. -/
theorem overwrite_aligned (old new : List Nat) (h : new.length = old.length) :
    listOverwrite old 0 new = new := by
  have hd : old.drop new.length = [] :=
    List.drop_eq_nil_of_le (by omega)
  simp [listOverwrite, hd]

/-- Overwriting at the end of the contents is appending. -/
theorem overwrite_at_end (l bs : List Nat) :
    listOverwrite l l.length bs = l ++ bs := by
  have hd : l.drop (l.length + bs.length) = [] :=
    List.drop_eq_nil_of_le (by omega)
  simp [listOverwrite, hd, List.take_length]

/-- C10: for every run of the audio recorder, the finished WAV file is the
44-byte header followed by exactly the captured payload bytes, and — in the
wrap-free regime of the 32/16-bit header fields — the header's `dataSize`
equals the exact payload byte count, `chunkSize` equals `dataSize + 36`,
`byteRate` equals `sampleRate * numChannels * bitsPerSample / 8` and
`blockAlign` equals `numChannels * bitsPerSample / 8` (with the program's
fixed 16 bits per sample). -/
theorem C10_wav (channels sampleRate : Nat) (payload : List Nat)
    (hsize : payload.length + 36 < 4294967296)
    (hbr : sampleRate * channels * 16 < 4294967296)
    (hba : channels * 16 / 8 < 65536) :
    recordWav channels sampleRate payload
      = serializeWAVHeader (mkWAVHeader channels sampleRate 16 payload.length)
          ++ payload ∧
    (serializeWAVHeader (mkWAVHeader channels sampleRate 16 payload.length)).length
        = 44 ∧
    (mkWAVHeader channels sampleRate 16 payload.length).dataSize = payload.length ∧
    (mkWAVHeader channels sampleRate 16 payload.length).chunkSize
        = payload.length + 36 ∧
    (mkWAVHeader channels sampleRate 16 payload.length).byteRate
        = sampleRate * channels * 16 / 8 ∧
    (mkWAVHeader channels sampleRate 16 payload.length).blockAlign
        = channels * 16 / 8 := by
  have hlen0 := serializeWAVHeader_length (mkWAVHeader channels sampleRate 16 0)
  have hlenf := serializeWAVHeader_length (mkWAVHeader channels sampleRate 16 payload.length)
  refine ⟨?_, hlenf, ?_, ?_, ?_, ?_⟩
  · show (OFStream.writeBytes
        (OFStream.writeBytes
          (OFStream.seekBeg (OFStream.writeBytes { content := [], pos := 0 }
            (serializeWAVHeader (mkWAVHeader channels sampleRate 16 0))))
          (serializeWAVHeader (mkWAVHeader channels sampleRate 16 payload.length)))
        payload).content = _
    simp only [OFStream.writeBytes, OFStream.seekBeg]
    rw [show listOverwrite [] 0 (serializeWAVHeader (mkWAVHeader channels sampleRate 16 0))
        = serializeWAVHeader (mkWAVHeader channels sampleRate 16 0) from by
      simp [listOverwrite]]
    rw [overwrite_aligned _ _ (by rw [hlen0, hlenf])]
    rw [show (0 : Nat) + (serializeWAVHeader (mkWAVHeader channels sampleRate 16
        payload.length)).length
        = (serializeWAVHeader (mkWAVHeader channels sampleRate 16 payload.length)).length
      from Nat.zero_add _]
    exact overwrite_at_end _ _
  · show payload.length % 4294967296 = payload.length
    omega
  · show (36 + payload.length % 4294967296) % 4294967296 = payload.length + 36
    omega
  · show sampleRate * channels * 16 % 4294967296 / 8 = sampleRate * channels * 16 / 8
    omega
  · show channels * 16 / 8 % 65536 = channels * 16 / 8
    omega

/-- C10 witness: a concrete run with 2 channels, 48 kHz and a four-byte
payload — the file is the header followed by the payload, and the header
fields take their wrap-free values. -/
theorem C10_witness :
    recordWav 2 48000 [1, 2, 3, 4]
      = serializeWAVHeader (mkWAVHeader 2 48000 16 4) ++ [1, 2, 3, 4] ∧
    (serializeWAVHeader (mkWAVHeader 2 48000 16 4)).length = 44 ∧
    (mkWAVHeader 2 48000 16 4).dataSize = 4 ∧
    (mkWAVHeader 2 48000 16 4).chunkSize = 4 + 36 ∧
    (mkWAVHeader 2 48000 16 4).byteRate = 48000 * 2 * 16 / 8 ∧
    (mkWAVHeader 2 48000 16 4).blockAlign = 2 * 16 / 8 :=
  C10_wav 2 48000 [1, 2, 3, 4] (by decide) (by decide) (by decide)
